import Mathlib

/-!
Verification development for the RequestTap Router gateway.

The definitions below are a shallow embedding of the TypeScript source:
`packages/gateway/src/routing.ts`, `packages/gateway/src/middleware/payment.ts`,
the `createApp` request pipeline (`server.ts`) and the admin `POST /admin/routes`
handler (`admin-routes.ts`).  JavaScript regular expressions are embedded by
their denotation on the segment structure the code compiles them from; machine
floats produced by `parseFloat` are embedded as rationals via a decimal parser
restricted to plain decimal literals (sign, digits, optional fraction), which
covers every price string the gateway's own validation admits.
-/

namespace RequestTap

/-! ### String helpers (JavaScript semantics) -/

/-- ASCII uppercasing, the behaviour of JS `toUpperCase` on ASCII strings. -/
def asciiUpper (s : String) : String := String.mk (s.toList.map Char.toUpper)

/-- ASCII lowercasing, the behaviour of JS `toLowerCase` on ASCII strings. -/
def asciiLower (s : String) : String := String.mk (s.toList.map Char.toLower)

/-- Split on a single-character separator, the behaviour of JS
`s.split(sep)`: `""` yields `[""]`, separators at the ends yield empty
segments. -/
def splitCharAux (sep : Char) : List Char → List Char → List String
  | [], acc => [String.mk acc.reverse]
  | c :: rest, acc =>
    if c = sep then String.mk acc.reverse :: splitCharAux sep rest []
    else splitCharAux sep rest (c :: acc)

def jsSplit (sep : Char) (s : String) : List String := splitCharAux sep s.toList []

/-- JS `a || b` on strings: `a` when non-empty (truthy), else `b`. -/
def jsOr (a b : String) : String := if a = "" then b else a

/-- Value of a list of ASCII digit characters read in base 10. -/
def digitsToNat (cs : List Char) : Nat :=
  cs.foldl (fun n c => 10 * n + (c.toNat - 48)) 0

/-- JS whitespace characters recognised by `\s` (ASCII portion). -/
def isJsWhitespace (c : Char) : Bool :=
  c = ' ' || c = '\t' || c = '\n' || c = '\r' || c = '\x0b' || c = '\x0c'

/-- Embedding of JS `parseFloat` restricted to plain decimal literals:
optional leading whitespace, optional sign, digits, optional `.digits`.
`none` stands for `NaN`.  Exponent forms and `Infinity` are outside the
model; the price strings handled by the gateway are plain decimals. -/
def jsParseFloat (s : String) : Option ℚ :=
  let cs := s.toList.dropWhile isJsWhitespace
  let signed : Bool × List Char :=
    match cs with
    | '-' :: rest => (true, rest)
    | '+' :: rest => (false, rest)
    | _ => (false, cs)
  let intPart := signed.2.takeWhile Char.isDigit
  let afterInt := signed.2.drop intPart.length
  let fracPart :=
    match afterInt with
    | '.' :: rest => rest.takeWhile Char.isDigit
    | _ => []
  if intPart.isEmpty && fracPart.isEmpty then none
  else
    let den : Nat := 10 ^ fracPart.length
    let num : Nat := digitsToNat intPart * den + digitsToNat fracPart
    let mag : ℚ := mkRat (Int.ofNat num) den
    some (if signed.1 then -mag else mag)

/-! ### Route rules (`routing.ts`) -/

structure ProviderAuth where
  header : String
  value : String
deriving DecidableEq

structure ProviderConfig where
  provider_id : String
  backend_url : String
  auth : Option ProviderAuth := none
deriving DecidableEq

structure RouteRule where
  method : String
  path : String
  tool_id : String
  provider : ProviderConfig
  price_usdc : String
  group : Option String := none
  description : Option String := none
  restricted : Bool := false
deriving DecidableEq

/-- One segment of a compiled path pattern: a `:name` parameter (compiled by
`pathToRegex` to the capture group `([^/]+)`) or a literal segment (compiled
with every regex metacharacter escaped, hence denoting exact equality). -/
inductive SegPat where
  | param (name : String)
  | lit (s : String)
deriving DecidableEq

/-- Segment structure of `pathToRegex(path)`: the path is split on `/`, each
segment starting with `:` becomes a parameter, every other segment a literal. -/
def pathToPattern (path : String) : List SegPat :=
  (jsSplit '/' path).map fun seg =>
    match seg.toList with
    | ':' :: rest => .param (String.mk rest)
    | _ => .lit seg

/-- The capture-group names of `pathToRegex(path)`, in order. -/
def paramNames (path : String) : List String :=
  (pathToPattern path).filterMap fun
    | .param n => some n
    | .lit _ => none

/-- Denotation of one compiled segment on one path segment.  `([^/]+)`
accepts any non-empty segment (segments produced by splitting on `/`
contain no slash); an escaped literal accepts exactly itself. -/
def segAccepts : SegPat → String → Bool
  | .param _, s => !s.toList.isEmpty
  | .lit l, s => decide (s = l)

/-- Denotation of the anchored regex `^…$` built by `pathToRegex` on a request
path.  Since neither the literal segments nor the strings matched by `([^/]+)`
may contain `/`, the regex matches exactly when the slash-split of the request
path aligns segment by segment with the pattern. -/
def patternAccepts (pats : List SegPat) (reqPath : String) : Bool :=
  let segs := jsSplit '/' reqPath
  decide (pats.length = segs.length) && (pats.zip segs).all fun ps => segAccepts ps.1 ps.2

structure CompiledRule where
  rule : RouteRule
  pats : List SegPat
  segmentCount : Nat
  literalCount : Nat
  insertionOrder : Nat
deriving DecidableEq

/-- The body of the `map` in `compileRoutes`: compile one rule at index `i`.
`segmentCount` counts the non-empty segments (`filter(Boolean)`), and
`literalCount` those of them not starting with `:`. -/
def isParamSeg (s : String) : Bool :=
  match s.toList with
  | ':' :: _ => true
  | _ => false

def compileEntry (i : Nat) (rule : RouteRule) : CompiledRule :=
  let segments := (jsSplit '/' rule.path).filter (fun s => !s.toList.isEmpty)
  { rule := rule
    pats := pathToPattern rule.path
    segmentCount := segments.length
    literalCount := (segments.filter (fun s => !isParamSeg s)).length
    insertionOrder := i }

/-- The order induced by the comparator in `compileRoutes`: more segments
first, then more literals, then insertion order. -/
def RuleLEProp (a b : CompiledRule) : Prop :=
  b.segmentCount < a.segmentCount ∨
    (a.segmentCount = b.segmentCount ∧
      (b.literalCount < a.literalCount ∨
        (a.literalCount = b.literalCount ∧ a.insertionOrder ≤ b.insertionOrder)))

instance (a b : CompiledRule) : Decidable (RuleLEProp a b) := by
  unfold RuleLEProp; infer_instance

instance : IsTotal CompiledRule RuleLEProp :=
  ⟨by intro a b; unfold RuleLEProp; omega⟩

instance : IsTrans CompiledRule RuleLEProp :=
  ⟨by intro a b c; unfold RuleLEProp; omega⟩

/-! ### SSRF guard (`utils/ssrf.ts` is not under `src/`; modelled from the spec) -/

/-- Characters after the first occurrence of `://`, if any. -/
def afterSchemeSep : List Char → Option (List Char)
  | ':' :: '/' :: '/' :: rest => some rest
  | _ :: rest => afterSchemeSep rest
  | [] => none

/-- Host portion of a URL: the text between `://` (if present) and the first
`/`, with any `:port` suffix removed. -/
def urlHost (url : String) : String :=
  let afterScheme := (afterSchemeSep url.toList).getD url.toList
  let hostPort := afterScheme.takeWhile (fun c => decide (c ≠ '/'))
  String.mk (hostPort.takeWhile (fun c => decide (c ≠ ':')))

/-- Parse a dotted-quad IPv4 literal. -/
def parseIPv4 (host : String) : Option (Nat × Nat × Nat × Nat) :=
  let parts := (jsSplit '.' host).map fun p =>
    if !p.toList.isEmpty && p.toList.all Char.isDigit then some (digitsToNat p.toList) else none
  match parts with
  | [some a, some b, some c, some d] =>
    if a ≤ 255 && b ≤ 255 && c ≤ 255 && d ≤ 255 then some (a, b, c, d) else none
  | _ => none

/-- Modelled from the spec: `utils/ssrf.ts` (`isPrivateOrReserved` /
`assertNotSSRF`) is not under `src/`.  Per §4.9 the gateway refuses hosts in
loopback, link-local, RFC1918, CGNAT, multicast or reserved ranges.  We model
the IPv4-literal and `localhost` cases; hostnames requiring DNS resolution are
treated as public. -/
def isPrivateOrReserved (host : String) : Bool :=
  let h := asciiLower host
  if h = "localhost" then true
  else
    match parseIPv4 h with
    | some (a, b, _, _) =>
      decide (a = 127 ∨ a = 10 ∨ a = 0 ∨ (a = 192 ∧ b = 168) ∨
        (a = 172 ∧ 16 ≤ b ∧ b ≤ 31) ∨ (a = 169 ∧ b = 254) ∨
        (a = 100 ∧ 64 ≤ b ∧ b ≤ 127) ∨ 224 ≤ a)
    | none => false

/-- `assertNotSSRF` throws exactly when the backend URL's host is private or
reserved. -/
def isSSRFBlocked (url : String) : Bool := isPrivateOrReserved (urlHost url)

structure SSRFErrorInfo where
  url : String
deriving DecidableEq

/-- `compileRoutes`: maps `compileEntry` over the rules (running the SSRF
assertion on each backend URL, throwing at the first blocked one) and sorts by
the comparator.  The thrown error is the `.error` case.  The sort is rendered
as insertion sort: the comparator is a linear order whenever the insertion
indices are distinct (as they are here), so the sorted permutation the
JavaScript engine produces is the unique one this sort produces. -/
def compileRoutes (rules : List RouteRule) : Except SSRFErrorInfo (List CompiledRule) :=
  match rules.find? (fun r => isSSRFBlocked r.provider.backend_url) with
  | some bad => .error ⟨bad.provider.backend_url⟩
  | none => .ok (List.insertionSort RuleLEProp (rules.mapIdx compileEntry))

structure MatchResult where
  rule : RouteRule
  price : String
  params : List (String × String)
deriving DecidableEq

/-- The capture groups of a successful match: the path segments standing at
the parameter positions of the pattern, in order. -/
def captures (pats : List SegPat) (segs : List String) : List String :=
  (pats.zip segs).filterMap fun ps =>
    match ps.1 with
    | .param _ => some ps.2
    | .lit _ => none

def entryMatches (e : CompiledRule) (method path : String) : Bool :=
  decide (asciiUpper e.rule.method = asciiUpper method) && patternAccepts e.pats path

/-- Result construction in the loop body of `matchRule`: the parameter names
recomputed from the rule's path, bound to the regex captures in order. -/
def mkMatchResult (e : CompiledRule) (path : String) : MatchResult :=
  { rule := e.rule
    price := e.rule.price_usdc
    params := (paramNames e.rule.path).zip (captures e.pats (jsSplit '/' path)) }

/-- `matchRule`: iterate the compiled list, return the first entry whose
method matches (uppercased) and whose regex accepts the path.  A fall-through
(`RouteNotFoundError`) is `none`. -/
def matchRule : List CompiledRule → String → String → Option MatchResult
  | [], _, _ => none
  | e :: rest, method, path =>
    if entryMatches e method path then some (mkMatchResult e path)
    else matchRule rest method path

/-! ### Payment coordinator (`middleware/payment.ts`) -/

/-- The fields of `GatewayConfig` the payment coordinator and pipeline read. -/
structure GatewayCfg where
  payToAddress : String
  baseNetwork : String
  facilitatorUrl : String
deriving DecidableEq

def NETWORK_MAP : List (String × String) :=
  [("base-sepolia", "eip155:84532"), ("base", "eip155:8453"), ("base-mainnet", "eip155:8453")]

def toCAIP2Network (network : String) : String :=
  match NETWORK_MAP.lookup network with
  | some n => n
  | none => "eip155:" ++ network

/-- `\w` of a JS regex without the unicode flag: `[A-Za-z0-9_]`. -/
def isWordChar (c : Char) : Bool := c.isAlphanum || c = '_'

/-- Scanner for `path.replace(/:[\w]+/g, "*")`: a `:` followed by at least
one word character is replaced, with the word-character run consumed, by a
single `*`; everything else is copied.  The flag records that the previous
characters were a replaced run still being consumed. -/
def x402Scan : Bool → List Char → List Char
  | _, [] => []
  | inParam, c :: rest =>
    if inParam && isWordChar c then x402Scan true rest
    else if c = ':' then
      match rest with
      | d :: _ => if isWordChar d then '*' :: x402Scan true rest else ':' :: x402Scan false rest
      | [] => ':' :: x402Scan false rest
    else c :: x402Scan false rest

/-- `rule.path.replace(/:[\w]+/g, "*")`. -/
def x402Path (path : String) : String := String.mk (x402Scan false path.toList)

/-- The key under which a rule is stored in the x402 routes config:
`` `${rule.method.toUpperCase()} ${x402Path}` ``. -/
def x402Key (rule : RouteRule) : String :=
  asciiUpper rule.method ++ " " ++ x402Path rule.path

structure PaymentRequirement where
  scheme : String
  price : String
  network : String
  payTo : String
deriving DecidableEq

/-- One value of the x402 `RoutesConfig` object. -/
structure RouteConfig where
  accepts : List PaymentRequirement
  description : String
  mimeType : String
deriving DecidableEq

/-- The route config value built for a rule, both in `buildRoutesConfig`
and in the dynamic `addRoute`. -/
def routeConfigOf (network payTo : String) (rule : RouteRule) : RouteConfig :=
  { accepts := [{ scheme := "exact"
                  price := "$" ++ rule.price_usdc
                  network := network
                  payTo := payTo }]
    description := rule.tool_id ++ " via " ++ rule.provider.provider_id
    mimeType := "application/json" }

/-- The guard `const price = parseFloat(rule.price_usdc); if (price <= 0)
continue;`.  Note that when `parseFloat` yields `NaN` the JS comparison
`NaN <= 0` is `false`, so the rule is NOT skipped. -/
def skippedByPrice (rule : RouteRule) : Bool :=
  match jsParseFloat rule.price_usdc with
  | some q => decide (q ≤ 0)
  | none => false

/-- JS object assignment `obj[k] = v`: overwrite in place the entry of an
existing key (keys are unique in the configs built here), else append. -/
def upsert : List (String × RouteConfig) → String → RouteConfig → List (String × RouteConfig)
  | [], k, v => [(k, v)]
  | (k1, v1) :: rest, k, v =>
    if k1 = k then (k, v) :: rest else (k1, v1) :: upsert rest k v

/-- Loop body of `buildRoutesConfig`. -/
def brcStep (network payTo : String) (acc : List (String × RouteConfig)) (rule : RouteRule) :
    List (String × RouteConfig) :=
  if skippedByPrice rule then acc
  else upsert acc (x402Key rule) (routeConfigOf network payTo rule)

/-- `buildRoutesConfig(rules, config)`: rules with a positive (or NaN) parsed
price are stored under their x402 key with the CAIP-2 network derived from
`config.baseNetwork` and the configured pay-to address. -/
def buildRoutesConfig (rules : List RouteRule) (cfg : GatewayCfg) :
    List (String × RouteConfig) :=
  rules.foldl (brcStep (toCAIP2Network cfg.baseNetwork) cfg.payToAddress) []

/-- Observable state of `createPaymentSystem`'s closure: whether the
pass-through branch was taken, the init-time captured network values, and the
mutable `routesConfig` object. -/
structure PaymentSystemModel where
  passThrough : Bool
  initNetwork : String
  initNetworkName : String
  routesConfig : List (String × RouteConfig)
deriving DecidableEq

def createPaymentSystem (cfg : GatewayCfg) (routes : List RouteRule) : PaymentSystemModel :=
  let rc := buildRoutesConfig routes cfg
  { passThrough := rc.isEmpty
    initNetwork := toCAIP2Network cfg.baseNetwork
    initNetworkName := cfg.baseNetwork
    routesConfig := rc }

/-- `getNetwork()` returns the closure constant captured at construction. -/
def PaymentSystemModel.getNetwork (ps : PaymentSystemModel) : String := ps.initNetwork

/-- `getNetworkName()` returns the closure constant captured at construction. -/
def PaymentSystemModel.getNetworkName (ps : PaymentSystemModel) : String := ps.initNetworkName

/-- Dynamic `addRoute`: a no-op closure in the pass-through branch; otherwise
skips non-positive parsed prices and stores the requirement built with the
init-time network (`network: initNetwork` in the source) and the CURRENT
config's pay-to address. -/
def PaymentSystemModel.addRoute (ps : PaymentSystemModel) (currentCfg : GatewayCfg)
    (rule : RouteRule) : PaymentSystemModel :=
  if ps.passThrough then ps
  else if skippedByPrice rule then ps
  else { ps with
         routesConfig :=
           upsert ps.routesConfig (x402Key rule)
             (routeConfigOf ps.initNetwork currentCfg.payToAddress rule) }

/-- Dynamic `removeRoute`: a no-op closure in the pass-through branch;
otherwise deletes the rule's key. -/
def PaymentSystemModel.removeRoute (ps : PaymentSystemModel) (rule : RouteRule) :
    PaymentSystemModel :=
  if ps.passThrough then ps
  else { ps with routesConfig := ps.routesConfig.filter (fun p => !(p.1 == x402Key rule)) }

/-- A sequence of `addRoute` calls, each seeing the (possibly mutated)
gateway config current at call time. -/
def applyAdds (ps : PaymentSystemModel) (ops : List (GatewayCfg × RouteRule)) :
    PaymentSystemModel :=
  ops.foldl (fun s op => s.addRoute op.1 op.2) ps

/-- Outcome of the external x402 library calls inside the middleware, an
oracle of the model: `notRequired` is `requiresPayment(context) === false`;
the others are the result of `processHTTPRequest`, with `threw` covering an
exception escaping it (or the facilitator call inside it). -/
inductive X402Result where
  | notRequired
  | noPaymentRequired
  | paymentError (status : Nat)
  | verified
  | threw
deriving DecidableEq

/-- What the middleware does with the Express continuation. -/
inductive MwAction where
  | callNext (verified : Bool)
  | respond (status : Nat)
deriving DecidableEq

/-- The payment middleware of `createPaymentSystem`.  The pass-through branch
always calls `next()`.  Otherwise: `requiresPayment` false or a
`no-payment-required` result call `next()` unverified; a `payment-error`
result is sent back with its status; `payment-verified` sets
`req.x402Verified = true` and calls `next()`; an exception is caught, logged,
and — fail-open — `next()` is called without marking the request verified. -/
def paymentMiddleware (ps : PaymentSystemModel) (x : X402Result) : MwAction :=
  if ps.passThrough then .callNext false
  else
    match x with
    | .notRequired => .callNext false
    | .noPaymentRequired => .callNext false
    | .paymentError s => .respond s
    | .verified => .callNext true
    | .threw => .callNext false

structure SettlementResult where
  txHash : Option String
  network : Option String
  payer : Option String
deriving DecidableEq

/-- Outcome of `processSettlement`, an oracle of the model: `success` carries
`result.transaction || null` and friends; `failed` is `success === false`;
`threw` an exception. -/
inductive SettleOutcome where
  | success (tx net payer : Option String)
  | failed
  | threw
deriving DecidableEq

/-- `paymentSystem.settle(req)`: the pass-through stub always returns nulls;
the full system returns nulls unless `req.x402Verified` was set, and
otherwise the settlement outcome (nulls again on failure or exception). -/
def settleCall (ps : PaymentSystemModel) (verified : Bool) (o : SettleOutcome) :
    SettlementResult :=
  if ps.passThrough then ⟨none, none, none⟩
  else if !verified then ⟨none, none, none⟩
  else
    match o with
    | .success tx net payer => ⟨tx, net, payer⟩
    | .failed => ⟨none, none, none⟩
    | .threw => ⟨none, none, none⟩

/-- Modelled from the spec: the HTTP 402 challenge emission lives in the
external `@x402` package (not part of this repository).  Per §4.5 and §6.3,
a request on a paid route carrying no payment header receives HTTP 402 with
a JSON body carrying the stored requirement verbatim
(`accepts/description/mimeType`). -/
def x402NoPaymentResponse (routesConfig : List (String × RouteConfig)) (key : String) :
    Option (Nat × RouteConfig) :=
  (routesConfig.lookup key).map (fun rc => (402, rc))

/-! ### Receipts (`@requesttap/shared`) -/

inductive Outcome where
  | SUCCESS | DENIED | ERROR | REFUNDED
deriving DecidableEq

inductive ReasonCode where
  | OK | MANDATE_BUDGET_EXCEEDED | ENDPOINT_NOT_ALLOWLISTED | MANDATE_EXPIRED
  | RATE_LIMITED | REPLAY_DETECTED | UPSTREAM_ERROR_NO_CHARGE | INVALID_SIGNATURE
  | INVALID_PAYMENT | ROUTE_NOT_FOUND | SSRF_BLOCKED | X402_UPSTREAM_BLOCKED
  | MANDATE_CONFIRM_REQUIRED | UNAUTHORIZED | INTERNAL_ERROR
deriving DecidableEq

structure Receipt where
  request_id : String
  tool_id : String
  provider_id : String
  endpoint : String
  method : String
  timestamp : String
  price_usdc : String
  chain : String
  mandate_id : Option String
  mandate_hash : Option String
  mandate_verdict : String
  reason_code : ReasonCode
  payment_tx_hash : Option String
  facilitator_receipt_id : Option String
  request_hash : String
  response_hash : Option String
  latency_ms : Option Nat
  outcome : Outcome
  explanation : String
deriving DecidableEq

/-! ### Proxy header hygiene (`server.ts`) -/

/-- An Express header value: a string or an array of strings. -/
inductive HVal where
  | str (v : String)
  | arr (vs : List String)
deriving DecidableEq

/-- How a header value is rendered for the upstream request: strings are
kept, arrays are joined with `", "`. -/
def joinHVal : HVal → String
  | .str v => v
  | .arr vs => String.intercalate ", " vs

def HOP_BY_HOP : List String :=
  ["host", "connection", "transfer-encoding", "content-length", "keep-alive",
   "upgrade", "proxy-authenticate", "proxy-authorization", "te", "trailer"]

/-- Modelled from the spec: the values of the shared `HEADERS` constants
(`packages/shared`, not under `src/`), per §6.1 and the lowercase names
Express exposes. -/
def INTERNAL_HEADERS : List String :=
  ["x-request-idempotency-key", "x-mandate", "x-payment", "x-receipt"]

def strippedHeader (k : String) : Bool :=
  HOP_BY_HOP.contains k || INTERNAL_HEADERS.contains k

/-- The proxy-header loop of the pipeline: every client header not in the
hop-by-hop or internal set is forwarded, arrays joined with `", "`. -/
def buildProxyHeaders (headers : List (String × HVal)) : List (String × String) :=
  headers.filterMap fun kv =>
    if strippedHeader kv.1 then none else some (kv.1, joinHVal kv.2)

/-! ### Request pipeline (`createApp`'s `/api/*` handler, `server.ts`) -/

/-- The inbound request as the handler sees it (header names already
lowercased by Express). -/
structure Req where
  method : String
  path : String
  headers : List (String × HVal)
deriving DecidableEq

/-- `req.headers[k]` read as a string, `""` when absent (the `|| ""`
defaults in the handler). -/
def Req.headerStr (r : Req) (k : String) : String :=
  match r.headers.lookup k with
  | some (.str v) => v
  | _ => ""

/-- `authHeader.replace(/^Bearer\s+/i, "")`. -/
def stripBearer (s : String) : String :=
  let cs := s.toList
  if asciiLower (String.mk (cs.take 6)) = "bearer" then
    let rest := cs.drop 6
    let ws := (rest.takeWhile isJsWhitespace).length
    if ws = 0 then s else String.mk (rest.drop ws)
  else s

/-- Dashboard config read per request from the config store. -/
structure DashConfig where
  apiKey : Option String
  blacklist : List String
deriving DecidableEq

/-- Outcome of `forwardRequest`: a transport error that throws, or a
returned upstream response of any status (per §4.6, non-2xx responses
return normally). -/
inductive ProxyOutcome where
  | transportError (msg : String)
  | ok (status : Nat) (data : String)
deriving DecidableEq

/-- The oracles of one pipeline run: values produced by the clock, the
request-id generator, the config store, the replay and mandate middlewares
(files not under `src/`; they receive neither the receipt store nor the
response of later stages, so they are sound as pass/short-circuit oracles),
the x402 library, the upstream fetch and the facilitator settlement. -/
structure PipelineEnv where
  requestId : String
  now : String
  dashConfig : DashConfig
  idemPasses : Bool
  idemStatus : Nat
  mandatePasses : Bool
  mandateStatus : Nat
  mandateId : Option String
  mandateVerdict : Option String
  requestHash : Option String
  x402 : X402Result
  proxy : ProxyOutcome
  settle : SettleOutcome
  latency : Nat
deriving DecidableEq

inductive Stage where
  | unauthorized | agentBlocked | routeNotFound | replayDenied
  | mandateDenied | paymentDenied | success | upstreamError
deriving DecidableEq

structure PipelineResult where
  stage : Stage
  status : Nat
  receipts : List Receipt
  proxyCalled : Bool
  proxyHeaders : Option (List (String × String))
  settleCalled : Bool
  verifiedAtProxy : Bool
deriving DecidableEq

/-- A result for a run that never reached the proxy stage. -/
def noProxy (stage : Stage) (status : Nat) (receipts : List Receipt) : PipelineResult :=
  { stage := stage
    status := status
    receipts := receipts
    proxyCalled := false
    proxyHeaders := none
    settleCalled := false
    verifiedAtProxy := false }

/-- Stage 0: the API-key check denies when a key is configured (truthy) and
neither the Bearer token nor `x-api-key` equals it. -/
def apiKeyDenied (dash : DashConfig) (req : Req) : Bool :=
  match dash.apiKey with
  | none => false
  | some k =>
    if k = "" then false
    else
      let provided :=
        jsOr (stripBearer (req.headerStr "authorization")) (req.headerStr "x-api-key")
      decide (provided ≠ k)

/-- Stage 0.5: the agent blocklist denies when `x-agent-address` is present
and its lowercasing is in the persisted blacklist. -/
def agentDenied (dash : DashConfig) (req : Req) : Bool :=
  let agent := req.headerStr "x-agent-address"
  decide (agent ≠ "") && dash.blacklist.contains (asciiLower agent)

/-- The receipt stored and returned on `RouteNotFoundError`. -/
def notFoundReceipt (cfg : GatewayCfg) (env : PipelineEnv) (req : Req) : Receipt :=
  { request_id := env.requestId
    tool_id := "unknown"
    provider_id := "unknown"
    endpoint := req.path
    method := req.method
    timestamp := env.now
    price_usdc := "0.00"
    chain := cfg.baseNetwork
    mandate_id := none
    mandate_hash := none
    mandate_verdict := "SKIPPED"
    reason_code := .ROUTE_NOT_FOUND
    payment_tx_hash := none
    facilitator_receipt_id := none
    request_hash := ""
    response_hash := none
    latency_ms := none
    outcome := .DENIED
    explanation := "No route found for " ++ req.method ++ " " ++ req.path }

/-- The receipt stored after a successful proxy and the settle call. -/
def successReceipt (cfg : GatewayCfg) (env : PipelineEnv) (req : Req) (m : MatchResult)
    (settlement : SettlementResult) (responseHash : String) : Receipt :=
  { request_id := env.requestId
    tool_id := m.rule.tool_id
    provider_id := m.rule.provider.provider_id
    endpoint := req.path
    method := req.method
    timestamp := env.now
    price_usdc := m.price
    chain := cfg.baseNetwork
    mandate_id := env.mandateId
    mandate_hash := none
    mandate_verdict := env.mandateVerdict.getD "SKIPPED"
    reason_code := .OK
    payment_tx_hash := settlement.txHash
    facilitator_receipt_id := settlement.txHash
    request_hash := env.requestHash.getD ""
    response_hash := some responseHash
    latency_ms := some env.latency
    outcome := .SUCCESS
    explanation := "Request processed successfully" }

/-- The receipt stored when `forwardRequest` throws. -/
def upstreamErrorReceipt (cfg : GatewayCfg) (env : PipelineEnv) (req : Req)
    (m : MatchResult) (msg : String) : Receipt :=
  { request_id := env.requestId
    tool_id := m.rule.tool_id
    provider_id := m.rule.provider.provider_id
    endpoint := req.path
    method := req.method
    timestamp := env.now
    price_usdc := "0.00"
    chain := cfg.baseNetwork
    mandate_id := env.mandateId
    mandate_hash := none
    mandate_verdict := env.mandateVerdict.getD "SKIPPED"
    reason_code := .UPSTREAM_ERROR_NO_CHARGE
    payment_tx_hash := none
    facilitator_receipt_id := none
    request_hash := env.requestHash.getD ""
    response_hash := none
    latency_ms := some env.latency
    outcome := .ERROR
    explanation := "Upstream error: " ++ msg }

/-- The `/api/*` handler, stage by stage.  `receipts` collects exactly the
`receiptStore.add` calls the handler makes; the replay and mandate
middlewares hold no reference to the receipt store and cannot add any. -/
def runPipeline (cfg : GatewayCfg) (ps : PaymentSystemModel) (compiled : List CompiledRule)
    (hashFn : String → String) (env : PipelineEnv) (req : Req) : PipelineResult :=
  if apiKeyDenied env.dashConfig req then noProxy .unauthorized 401 []
  else if agentDenied env.dashConfig req then noProxy .agentBlocked 403 []
  else
    match matchRule compiled req.method req.path with
    | none => noProxy .routeNotFound 404 [notFoundReceipt cfg env req]
    | some m =>
      if !env.idemPasses then noProxy .replayDenied env.idemStatus []
      else if !env.mandatePasses then noProxy .mandateDenied env.mandateStatus []
      else
        match paymentMiddleware ps env.x402 with
        | .respond s => noProxy .paymentDenied s []
        | .callNext verified =>
          let phs := buildProxyHeaders req.headers
          match env.proxy with
          | .transportError msg =>
            { stage := .upstreamError
              status := 502
              receipts := [upstreamErrorReceipt cfg env req m msg]
              proxyCalled := true
              proxyHeaders := some phs
              settleCalled := false
              verifiedAtProxy := verified }
          | .ok st data =>
            let settlement := settleCall ps verified env.settle
            { stage := .success
              status := st
              receipts := [successReceipt cfg env req m settlement (hashFn data)]
              proxyCalled := true
              proxyHeaders := some phs
              settleCalled := true
              verifiedAtProxy := verified }

/-- Number of receipts the handler appends for a run ending at a stage. -/
def stageReceiptCount : Stage → Nat
  | .routeNotFound => 1
  | .success => 1
  | .upstreamError => 1
  | _ => 0

/-! ### Route manager and admin `POST /admin/routes` (`server.ts`, `admin-routes.ts`) -/

structure RouteManagerState where
  currentRoutes : List RouteRule
  currentCompiled : List CompiledRule
deriving DecidableEq

structure AddRouteResult where
  state : RouteManagerState
  error : Option SSRFErrorInfo
deriving DecidableEq

/-- `routeManager.addRoute`: `currentRoutes.push(rule)` happens FIRST; then
`compileRoutes(currentRoutes)` runs, and only on success is
`currentCompiled` reassigned.  A thrown `SSRFError` therefore leaves the
pushed rule in `currentRoutes` while `currentCompiled` keeps its old value. -/
def rmAddRoute (st : RouteManagerState) (rule : RouteRule) : AddRouteResult :=
  let routes2 := st.currentRoutes ++ [rule]
  match compileRoutes routes2 with
  | .ok c => ⟨⟨routes2, c⟩, none⟩
  | .error e => ⟨⟨routes2, st.currentCompiled⟩, some e⟩

structure AdminResponse where
  status : Nat
  reason : Option String
deriving DecidableEq

/-- The rule object the admin handler constructs from the request body
(`method: method.toUpperCase()`). -/
def adminRuleOf (rule : RouteRule) : RouteRule :=
  { rule with method := asciiUpper rule.method }

/-- The `POST /admin/routes` handler: field validation, then the
x402-upstream probe (`probeBlocks` is its outcome; transport errors allow),
then `routeManager.addRoute`; a thrown `X402UpstreamError` or `SSRFError`
maps to HTTP 400 with the corresponding reason. -/
def adminPostRoute (st : RouteManagerState) (rule : RouteRule) (probeBlocks : Bool) :
    AdminResponse × RouteManagerState :=
  if rule.method = "" then (⟨400, none⟩, st)
  else if !(rule.path.toList.head? == some '/') then (⟨400, none⟩, st)
  else if rule.tool_id = "" then (⟨400, none⟩, st)
  else if rule.price_usdc = "" || (jsParseFloat rule.price_usdc).isNone then (⟨400, none⟩, st)
  else if rule.provider.provider_id = "" || rule.provider.backend_url = "" then (⟨400, none⟩, st)
  else if probeBlocks then (⟨400, some "X402_UPSTREAM_BLOCKED"⟩, st)
  else
    let r := rmAddRoute st (adminRuleOf rule)
    match r.error with
    | some _ => (⟨400, some "SSRF_BLOCKED"⟩, r.state)
    | none => (⟨201, none⟩, r.state)

/-! ### Concrete fixtures used by witnesses and counterexamples -/

def cfgEx : GatewayCfg :=
  { payToAddress := "0x1111111111111111111111111111111111111111"
    baseNetwork := "base-sepolia"
    facilitatorUrl := "https://facilitator.example/" }

/-- A paid route, as in the spec's scenario 1. -/
def paidRule : RouteRule :=
  { method := "GET"
    path := "/api/v1/quote"
    tool_id := "quote"
    provider := { provider_id := "acme-data", backend_url := "https://api.example.com" }
    price_usdc := "0.01" }

/-- A free route: parsed price 0 is skipped by `buildRoutesConfig`. -/
def freeRule : RouteRule :=
  { method := "GET"
    path := "/api/v1/free"
    tool_id := "free"
    provider := { provider_id := "acme-data", backend_url := "https://api.example.com" }
    price_usdc := "0" }

/-- A route whose price string does not parse: `parseFloat("") = NaN`, and
`NaN <= 0` is `false`, so `buildRoutesConfig` does NOT skip it. -/
def nanRule : RouteRule :=
  { method := "GET"
    path := "/api/v1/broken"
    tool_id := "broken"
    provider := { provider_id := "acme-data", backend_url := "https://api.example.com" }
    price_usdc := "" }

/-- A rule whose backend URL resolves to loopback, the spec's scenario 5. -/
def ssrfRule : RouteRule :=
  { method := "GET"
    path := "/api/v1/echo"
    tool_id := "echo"
    provider := { provider_id := "local", backend_url := "http://127.0.0.1:9000" }
    price_usdc := "0.01" }

/-- Payment system constructed over one paid route: the full (non-stub) branch. -/
def psFull : PaymentSystemModel := createPaymentSystem cfgEx [paidRule]

/-- Payment system constructed over no routes: the pass-through stub branch. -/
def psPass : PaymentSystemModel := createPaymentSystem cfgEx []

/-- Compiled route table holding just the paid quote route. -/
def csQuote : List CompiledRule := (compileRoutes [paidRule]).toOption.getD []

def hashEx : String → String := fun _ => "0xhash"

/-- An environment in which every stage passes. -/
def envBase : PipelineEnv :=
  { requestId := "rid-1"
    now := "2026-01-01T00:00:00.000Z"
    dashConfig := { apiKey := none, blacklist := [] }
    idemPasses := true
    idemStatus := 409
    mandatePasses := true
    mandateStatus := 403
    mandateId := none
    mandateVerdict := none
    requestHash := none
    x402 := .notRequired
    proxy := .ok 200 "\x7b\x7d"
    settle := .failed
    latency := 5 }

def reqQuote : Req := { method := "GET", path := "/api/v1/quote", headers := [] }

def reqBadKey : Req :=
  { method := "GET"
    path := "/api/v1/quote"
    headers := [("authorization", .str "Bearer wrong")] }

def reqBlockedAgent : Req :=
  { method := "GET"
    path := "/api/v1/quote"
    headers := [("x-agent-address", .str "0xBAD")] }

/-- `/a/:y/:z`-shaped rule: three non-empty segments beyond the prefix, one
of them literal fewer than `specificRule`. -/
def genericRule : RouteRule :=
  { method := "GET"
    path := "/api/v1/a/:y/:z"
    tool_id := "t-generic"
    provider := { provider_id := "acme-data", backend_url := "https://api.example.com" }
    price_usdc := "0.01" }

/-- `/a/b/:x`-shaped rule: same segment count as `genericRule`, more literals. -/
def specificRule : RouteRule :=
  { method := "GET"
    path := "/api/v1/a/b/:x"
    tool_id := "t-specific"
    provider := { provider_id := "acme-data", backend_url := "https://api.example.com" }
    price_usdc := "0.02" }

/-- The less specific rule is inserted first, so only the comparator can make
`specificRule` win. -/
def specRules : List RouteRule := [genericRule, specificRule]

def csSpec : List CompiledRule := (compileRoutes specRules).toOption.getD []

/-- A rule whose path has a literal segment containing the regex
metacharacter `.`. -/
def dotRule : RouteRule :=
  { method := "GET"
    path := "/api/v1/a.b"
    tool_id := "t-dot"
    provider := { provider_id := "acme-data", backend_url := "https://api.example.com" }
    price_usdc := "0.01" }

def csDot : List CompiledRule := (compileRoutes [dotRule]).toOption.getD []

/-- The gateway config after a runtime mutation of `baseNetwork`. -/
def cfgMut : GatewayCfg := { cfgEx with baseNetwork := "base" }

/-- A further paid route added dynamically after construction. -/
def addedRule : RouteRule :=
  { method := "GET"
    path := "/api/v1/quote2"
    tool_id := "quote2"
    provider := { provider_id := "acme-data", backend_url := "https://api.example.com" }
    price_usdc := "0.05" }

/-- Every requirement reachable in a routes config carries the given CAIP-2
network. -/
def netOK (net : String) (m : List (String × RouteConfig)) : Prop :=
  ∀ k rc, m.lookup k = some rc → ∀ a ∈ rc.accepts, a.network = net

/-! ## Shared helper lemmas -/

/-- The `matchRule` loop returns the first compiled entry that matches. -/
theorem matchRule_eq_find (cs : List CompiledRule) (m p : String) :
    matchRule cs m p
      = (cs.find? (fun e => entryMatches e m p)).map (fun e => mkMatchResult e p) := by
  induction cs with
  | nil => rfl
  | cons e rest ih =>
    by_cases h : entryMatches e m p
    · simp [matchRule, List.find?_cons_of_pos, h]
    · simp [matchRule, List.find?_cons_of_neg, h, ih]

/-- Looking up the assigned key after a JS object assignment yields the
assigned value. -/
theorem lookup_upsert_self (m : List (String × RouteConfig)) (k : String) (v : RouteConfig) :
    (upsert m k v).lookup k = some v := by
  induction m with
  | nil => simp [upsert, List.lookup]
  | cons a rest ih =>
    obtain ⟨k1, v1⟩ := a
    by_cases h : k1 = k
    · simp [upsert, h, List.lookup]
    · simp [upsert, h, List.lookup, ih, beq_false_of_ne (Ne.symm h)]

/-- A JS object assignment leaves every other key unchanged. -/
theorem lookup_upsert_ne (m : List (String × RouteConfig)) (k k2 : String) (v : RouteConfig)
    (h : k ≠ k2) : (upsert m k2 v).lookup k = m.lookup k := by
  induction m with
  | nil => simp [upsert, List.lookup, beq_false_of_ne h]
  | cons a rest ih =>
    obtain ⟨k1, v1⟩ := a
    by_cases h1 : k1 = k2
    · subst h1; simp [upsert, List.lookup, beq_false_of_ne h]
    · simp [upsert, h1, List.lookup, ih]

/-- A value found after an assignment is either the assigned one or was
already there. -/
theorem lookup_upsert_cases (m : List (String × RouteConfig)) (k2 : String) (v : RouteConfig)
    (k : String) (rc : RouteConfig) (h : (upsert m k2 v).lookup k = some rc) :
    rc = v ∨ m.lookup k = some rc := by
  by_cases hk : k = k2
  · subst hk
    rw [lookup_upsert_self] at h
    exact Or.inl (Option.some.inj h).symm
  · rw [lookup_upsert_ne _ _ _ _ hk] at h
    exact Or.inr h

/-- Once the routes-config fold holds the determined value at a key, the rest
of the fold keeps it (every later write to that key writes the same value). -/
theorem brc_lookup_preserved (network payTo : String) (k : String) (v : RouteConfig) :
    ∀ (rules : List RouteRule) (acc : List (String × RouteConfig)),
      (∀ r ∈ rules, skippedByPrice r = false → x402Key r = k →
        routeConfigOf network payTo r = v) →
      acc.lookup k = some v →
      (rules.foldl (brcStep network payTo) acc).lookup k = some v := by
  intro rules
  induction rules with
  | nil => intro acc _ hacc; exact hacc
  | cons r rest ih =>
    intro acc hall hacc
    simp only [List.foldl_cons]
    refine ih _ (fun r2 hr2 => hall r2 (List.mem_cons_of_mem _ hr2)) ?_
    unfold brcStep
    by_cases hs : skippedByPrice r
    · simp [hs, hacc]
    · simp only [hs, Bool.false_eq_true, if_false]
      by_cases hk : x402Key r = k
      · subst hk
        rw [lookup_upsert_self]
        rw [hall r (List.mem_cons_self r rest) (by simpa using hs) rfl]
      · rw [lookup_upsert_ne _ _ _ _ (fun h2 => hk h2.symm)]
        exact hacc

/-- If some non-skipped rule writes the key, the routes-config fold ends with
the determined value at that key. -/
theorem brc_lookup_found (network payTo : String) (k : String) (v : RouteConfig) :
    ∀ (rules : List RouteRule) (acc : List (String × RouteConfig)),
      (∀ r ∈ rules, skippedByPrice r = false → x402Key r = k →
        routeConfigOf network payTo r = v) →
      (∃ r ∈ rules, skippedByPrice r = false ∧ x402Key r = k) →
      (rules.foldl (brcStep network payTo) acc).lookup k = some v := by
  intro rules
  induction rules with
  | nil => intro acc _ hex; exact absurd hex (by simp)
  | cons r rest ih =>
    intro acc hall hex
    simp only [List.foldl_cons]
    by_cases hr : skippedByPrice r = false ∧ x402Key r = k
    · refine brc_lookup_preserved network payTo k v rest _
        (fun r2 hr2 => hall r2 (List.mem_cons_of_mem _ hr2)) ?_
      unfold brcStep
      obtain ⟨hs, hk⟩ := hr
      subst hk
      simp only [hs, Bool.false_eq_true, if_false]
      rw [lookup_upsert_self]
      rw [hall r (List.mem_cons_self r rest) hs rfl]
    · refine ih _ (fun r2 hr2 => hall r2 (List.mem_cons_of_mem _ hr2)) ?_
      obtain ⟨r2, hr2, hs2, hk2⟩ := hex
      rcases List.mem_cons.mp hr2 with heq | hmem
      · subst heq; exact absurd ⟨hs2, hk2⟩ hr
      · exact ⟨r2, hmem, hs2, hk2⟩

/-- The routes-config fold preserves the per-requirement network invariant. -/
theorem netOK_brc_foldl (net payTo : String) :
    ∀ (rules : List RouteRule) (acc : List (String × RouteConfig)),
      netOK net acc → netOK net (rules.foldl (brcStep net payTo) acc) := by
  intro rules
  induction rules with
  | nil => intro acc h; exact h
  | cons r rest ih =>
    intro acc h
    simp only [List.foldl_cons]
    refine ih _ ?_
    unfold brcStep
    by_cases hs : skippedByPrice r
    · simp [hs, h]
    · simp only [hs, Bool.false_eq_true, if_false]
      intro k rc hlk a ha
      rcases lookup_upsert_cases _ _ _ _ _ hlk with hv | hold
      · subst hv
        simp only [routeConfigOf, List.mem_singleton] at ha
        subst ha
        rfl
      · exact h k rc hold a ha

/-- Every requirement built at construction time carries the CAIP-2 network
derived from the construction-time config. -/
theorem netOK_build (cfg : GatewayCfg) (rules : List RouteRule) :
    netOK (toCAIP2Network cfg.baseNetwork) (buildRoutesConfig rules cfg) := by
  unfold buildRoutesConfig
  exact netOK_brc_foldl _ _ rules [] (by intro k rc h; simp [List.lookup] at h)

/-- `addRoute` never touches the closure constants captured at construction. -/
theorem addRoute_init_fields (ps : PaymentSystemModel) (c : GatewayCfg) (r : RouteRule) :
    (ps.addRoute c r).initNetwork = ps.initNetwork ∧
    (ps.addRoute c r).initNetworkName = ps.initNetworkName := by
  unfold PaymentSystemModel.addRoute
  by_cases hpt : ps.passThrough <;> by_cases hs : skippedByPrice r <;> simp [hpt, hs]

/-- `addRoute` preserves the per-requirement network invariant, because the
requirement it stores is built with the init-time network. -/
theorem netOK_addRoute (ps : PaymentSystemModel) (c : GatewayCfg) (r : RouteRule)
    (net : String) (hn : ps.initNetwork = net) (h : netOK net ps.routesConfig) :
    netOK net (ps.addRoute c r).routesConfig := by
  unfold PaymentSystemModel.addRoute
  by_cases hpt : ps.passThrough
  · simp [hpt, h]
  · by_cases hs : skippedByPrice r
    · simp [hpt, hs, h]
    · simp only [hpt, hs, Bool.false_eq_true, if_false]
      intro k rc hlk a ha
      rcases lookup_upsert_cases _ _ _ _ _ hlk with hv | hold
      · subst hv
        simp only [routeConfigOf, List.mem_singleton] at ha
        subst ha
        exact hn
      · exact h k rc hold a ha

/-- Invariant carried through an arbitrary sequence of `addRoute` calls. -/
theorem applyAdds_invariant (ops : List (GatewayCfg × RouteRule)) :
    ∀ (ps : PaymentSystemModel) (net : String), ps.initNetwork = net →
      netOK net ps.routesConfig →
      (applyAdds ps ops).initNetwork = net ∧
      (applyAdds ps ops).initNetworkName = ps.initNetworkName ∧
      netOK net (applyAdds ps ops).routesConfig := by
  induction ops with
  | nil => intro ps net hn h; exact ⟨hn, rfl, h⟩
  | cons op rest ih =>
    intro ps net hn h
    have hstep := addRoute_init_fields ps op.1 op.2
    have hrec := ih (ps.addRoute op.1 op.2) net (hstep.1.trans hn)
      (netOK_addRoute ps op.1 op.2 net hn h)
    exact ⟨hrec.1, hrec.2.1.trans hstep.2, hrec.2.2⟩

/-- When every rule is skipped by the price guard, the routes-config fold is
the identity. -/
theorem brc_all_skipped (net payTo : String) :
    ∀ (rules : List RouteRule) (acc : List (String × RouteConfig)),
      (∀ r ∈ rules, skippedByPrice r = true) →
      rules.foldl (brcStep net payTo) acc = acc := by
  intro rules
  induction rules with
  | nil => intro acc _; rfl
  | cons r rest ih =>
    intro acc hall
    simp only [List.foldl_cons]
    rw [show brcStep net payTo acc r = acc by
      unfold brcStep; simp [hall r (List.mem_cons_self r rest)]]
    exact ih _ (fun r2 h2 => hall r2 (List.mem_cons_of_mem _ h2))

/-! ## Claim theorems -/

/-- C1, counterexample.  The claim says every terminated `/api/*` request
appends exactly one receipt, including the 401 invalid-API-key and 403
blacklisted-agent denials.  On the code those two paths respond with a plain
JSON error body and never call `receiptStore.add`: a request with a wrong
Bearer token terminates with 401 and zero receipts, and a blacklisted agent
terminates with 403 and zero receipts. -/
theorem c1_counterexample :
    (runPipeline cfgEx psPass csQuote hashEx
        { envBase with dashConfig := { apiKey := some "secret", blacklist := [] } }
        reqBadKey).status = 401 ∧
    (runPipeline cfgEx psPass csQuote hashEx
        { envBase with dashConfig := { apiKey := some "secret", blacklist := [] } }
        reqBadKey).receipts = [] ∧
    (runPipeline cfgEx psPass csQuote hashEx
        { envBase with dashConfig := { apiKey := none, blacklist := ["0xbad"] } }
        reqBlockedAgent).status = 403 ∧
    (runPipeline cfgEx psPass csQuote hashEx
        { envBase with dashConfig := { apiKey := none, blacklist := ["0xbad"] } }
        reqBlockedAgent).receipts = [] := by
  decide

/-- C1, amended.  Every `/api/*` run appends at most one receipt, and exactly
one precisely when it terminates at route-not-found, proxy success, or
upstream transport error; the API-key (401), agent-blocklist (403), replay,
mandate, and payment denial paths append none. -/
theorem c1_receipt_discipline (cfg : GatewayCfg) (ps : PaymentSystemModel)
    (compiled : List CompiledRule) (hashFn : String → String) (env : PipelineEnv) (req : Req) :
    (runPipeline cfg ps compiled hashFn env req).receipts.length
      = stageReceiptCount (runPipeline cfg ps compiled hashFn env req).stage := by
  unfold runPipeline
  repeat' split <;> try rfl

/-- C2, counterexample.  The claim says no request reaches `forwardRequest`
unverified, including when payment processing throws.  On the code the
middleware's `catch` block calls `next()` without setting `x402Verified`:
with a non-stub payment system and an exception from the x402 processing,
the proxy stage is reached with the request unverified. -/
theorem c2_counterexample :
    psFull.passThrough = false ∧
    (runPipeline cfgEx psFull csQuote hashEx { envBase with x402 := X402Result.threw }
      reqQuote).proxyCalled = true ∧
    (runPipeline cfgEx psFull csQuote hashEx { envBase with x402 := X402Result.threw }
      reqQuote).verifiedAtProxy = false := by
  decide

/-- C2, amended.  With a non-stub payment system, as long as the x402
processing does not throw, a request reaches the proxy stage only when the
library declared no payment required (`requiresPayment` false or a
`no-payment-required` result) or the payment was verified; the fail-open
exception path is the only unverified way through a payment-requiring
route. -/
theorem c2_verified_before_proxy (cfg : GatewayCfg) (ps : PaymentSystemModel)
    (compiled : List CompiledRule) (hashFn : String → String) (env : PipelineEnv) (req : Req)
    (hps : ps.passThrough = false) (hx : env.x402 ≠ X402Result.threw)
    (hp : (runPipeline cfg ps compiled hashFn env req).proxyCalled = true) :
    env.x402 = X402Result.notRequired ∨ env.x402 = X402Result.noPaymentRequired ∨
      (runPipeline cfg ps compiled hashFn env req).verifiedAtProxy = true := by
  cases hx4 : env.x402 with
  | notRequired => exact Or.inl rfl
  | noPaymentRequired => exact Or.inr (Or.inl rfl)
  | threw => exact absurd hx4 hx
  | paymentError s =>
    exfalso
    unfold runPipeline at hp
    rw [hx4] at hp
    repeat' split at hp <;> try simp_all [noProxy, paymentMiddleware, hps]
  | verified =>
    refine Or.inr (Or.inr ?_)
    unfold runPipeline at hp ⊢
    rw [hx4] at hp ⊢
    repeat' split at hp <;> try simp_all [noProxy, paymentMiddleware, hps]

/-- C2, witness for the amended theorem at a concrete verified run. -/
theorem c2_witness :
    ({ envBase with x402 := X402Result.verified } : PipelineEnv).x402 = X402Result.notRequired ∨
    ({ envBase with x402 := X402Result.verified } : PipelineEnv).x402
      = X402Result.noPaymentRequired ∨
    (runPipeline cfgEx psFull csQuote hashEx { envBase with x402 := X402Result.verified }
      reqQuote).verifiedAtProxy = true :=
  c2_verified_before_proxy cfgEx psFull csQuote hashEx
    { envBase with x402 := X402Result.verified } reqQuote (by decide) (by decide) (by decide)

/-- C3, counterexample.  The claim says a SUCCESS receipt has a non-null tx
hash unless the facilitator is the no-op stub.  On the code, when the
facilitator settle fails after a verified payment on a non-stub system, the
handler still emits the SUCCESS receipt with `payment_tx_hash = null`. -/
theorem c3_counterexample :
    psFull.passThrough = false ∧
    ((runPipeline cfgEx psFull csQuote hashEx
        { envBase with x402 := X402Result.verified, settle := SettleOutcome.failed }
        reqQuote).receipts.map (fun r => (r.outcome, r.payment_tx_hash)))
      = [(Outcome.SUCCESS, none)] := by
  decide

/-- C3, amended.  For every receipt the pipeline appends: a non-null
`payment_tx_hash` implies `outcome = SUCCESS` (REFUNDED receipts are never
emitted), and a SUCCESS receipt carries exactly the settle call's tx hash —
which is null whenever settlement failed, threw, or the payment was not
verified, regardless of the facilitator being a stub. -/
theorem c3_tx_outcome_invariant (cfg : GatewayCfg) (ps : PaymentSystemModel)
    (compiled : List CompiledRule) (hashFn : String → String) (env : PipelineEnv) (req : Req)
    (rcpt : Receipt) (hmem : rcpt ∈ (runPipeline cfg ps compiled hashFn env req).receipts) :
    (rcpt.payment_tx_hash ≠ none → rcpt.outcome = Outcome.SUCCESS) ∧
    (rcpt.outcome = Outcome.SUCCESS →
      rcpt.payment_tx_hash
        = (settleCall ps (runPipeline cfg ps compiled hashFn env req).verifiedAtProxy
            env.settle).txHash) := by
  unfold runPipeline at hmem ⊢
  repeat' split at hmem <;>
    try simp_all [noProxy, notFoundReceipt, successReceipt, upstreamErrorReceipt]

/-- C3, witness for the amended theorem at a concrete denial receipt. -/
theorem c3_witness :
    ((notFoundReceipt cfgEx envBase reqQuote).payment_tx_hash ≠ none →
      (notFoundReceipt cfgEx envBase reqQuote).outcome = Outcome.SUCCESS) ∧
    ((notFoundReceipt cfgEx envBase reqQuote).outcome = Outcome.SUCCESS →
      (notFoundReceipt cfgEx envBase reqQuote).payment_tx_hash
        = (settleCall psPass (runPipeline cfgEx psPass [] hashEx envBase reqQuote).verifiedAtProxy
            envBase.settle).txHash) :=
  c3_tx_outcome_invariant cfgEx psPass [] hashEx envBase reqQuote
    (notFoundReceipt cfgEx envBase reqQuote) (by decide)

/-- C4, code-bug evaluation.  Adding a route whose backend is
`http://127.0.0.1:9000` does fail with 400 `SSRF_BLOCKED`, but because
`routeManager.addRoute` pushes the rule before compiling, the stored rule
list now contains the rejected rule (only the compiled table is unchanged),
and a subsequent add of a perfectly good route fails too. -/
theorem c4_ssrf_add_mutates_table :
    (adminPostRoute ⟨[], []⟩ ssrfRule false).1
      = { status := 400, reason := some "SSRF_BLOCKED" } ∧
    (adminPostRoute ⟨[], []⟩ ssrfRule false).2.currentRoutes = [ssrfRule] ∧
    (adminPostRoute ⟨[], []⟩ ssrfRule false).2.currentCompiled = [] ∧
    (rmAddRoute (adminPostRoute ⟨[], []⟩ ssrfRule false).2 paidRule).error.isSome = true := by
  decide

/-- C5.  `compileRoutes` yields a table sorted by (segment count desc,
literal count desc, insertion order asc) that is a permutation of the
per-rule compilations; `matchRule` returns the first entry whose uppercased
method matches and whose compiled regex accepts the path; concretely
`/a/b/:x` beats `/a/:y/:z` for `GET /api/v1/a/b/c` (inserted in the losing
order) with the `:x` capture bound in `params`, and a literal segment
containing the metacharacter `.` matches only itself. -/
theorem c5_route_compile_match (rules : List RouteRule) (cs : List CompiledRule)
    (h : compileRoutes rules = Except.ok cs) :
    cs.Sorted RuleLEProp ∧
    cs.Perm (rules.mapIdx compileEntry) ∧
    (∀ cs2 m p, matchRule cs2 m p
        = (cs2.find? (fun e => entryMatches e m p)).map (fun e => mkMatchResult e p)) ∧
    matchRule csSpec "get" "/api/v1/a/b/c"
      = some { rule := specificRule, price := "0.02", params := [("x", "c")] } ∧
    matchRule csDot "GET" "/api/v1/aXb" = none ∧
    matchRule csDot "GET" "/api/v1/a.b"
      = some { rule := dotRule, price := "0.01", params := [] } := by
  unfold compileRoutes at h
  refine ⟨?_, ?_, matchRule_eq_find, by decide, by decide, by decide⟩
  · cases hf : rules.find? (fun r => isSSRFBlocked r.provider.backend_url) with
    | some bad => rw [hf] at h; cases h
    | none =>
      rw [hf] at h
      cases h
      exact List.sorted_insertionSort RuleLEProp _
  · cases hf : rules.find? (fun r => isSSRFBlocked r.provider.backend_url) with
    | some bad => rw [hf] at h; cases h
    | none =>
      rw [hf] at h
      cases h
      exact List.perm_insertionSort RuleLEProp _

/-- C5, witness at the two-rule specificity fixture. -/
theorem c5_witness : csSpec.Sorted RuleLEProp :=
  (c5_route_compile_match specRules csSpec (by rfl)).1

/-- C6.  For a run that reaches the proxy stage: if `forwardRequest` throws a
transport error, the settle call is not made, the response is HTTP 502, and
the single stored receipt has `reason_code = UPSTREAM_ERROR_NO_CHARGE`,
`outcome = ERROR` and a null tx hash; if `forwardRequest` returns — with any
status, non-2xx included — the settle call is made and the upstream status is
relayed. -/
theorem c6_upstream_error_no_charge (cfg : GatewayCfg) (ps : PaymentSystemModel)
    (compiled : List CompiledRule) (hashFn : String → String) (env : PipelineEnv) (req : Req)
    (hp : (runPipeline cfg ps compiled hashFn env req).proxyCalled = true) :
    (∀ msg, env.proxy = ProxyOutcome.transportError msg →
      (runPipeline cfg ps compiled hashFn env req).settleCalled = false ∧
      (runPipeline cfg ps compiled hashFn env req).status = 502 ∧
      (runPipeline cfg ps compiled hashFn env req).stage = Stage.upstreamError ∧
      ((runPipeline cfg ps compiled hashFn env req).receipts.map
          (fun r => (r.reason_code, r.outcome, r.payment_tx_hash)))
        = [(ReasonCode.UPSTREAM_ERROR_NO_CHARGE, Outcome.ERROR, (none : Option String))]) ∧
    (∀ st data, env.proxy = ProxyOutcome.ok st data →
      (runPipeline cfg ps compiled hashFn env req).settleCalled = true ∧
      (runPipeline cfg ps compiled hashFn env req).status = st) := by
  unfold runPipeline at hp ⊢
  repeat' split at hp <;> try simp_all [noProxy, upstreamErrorReceipt]

/-- C6, witness at a concrete refused connection. -/
theorem c6_witness :
    (runPipeline cfgEx psPass csQuote hashEx
        { envBase with proxy := ProxyOutcome.transportError "connect ECONNREFUSED" }
        reqQuote).settleCalled = false ∧
    (runPipeline cfgEx psPass csQuote hashEx
        { envBase with proxy := ProxyOutcome.transportError "connect ECONNREFUSED" }
        reqQuote).status = 502 ∧
    (runPipeline cfgEx psPass csQuote hashEx
        { envBase with proxy := ProxyOutcome.transportError "connect ECONNREFUSED" }
        reqQuote).stage = Stage.upstreamError ∧
    ((runPipeline cfgEx psPass csQuote hashEx
        { envBase with proxy := ProxyOutcome.transportError "connect ECONNREFUSED" }
        reqQuote).receipts.map (fun r => (r.reason_code, r.outcome, r.payment_tx_hash)))
      = [(ReasonCode.UPSTREAM_ERROR_NO_CHARGE, Outcome.ERROR, (none : Option String))] :=
  (c6_upstream_error_no_charge cfgEx psPass csQuote hashEx
      { envBase with proxy := ProxyOutcome.transportError "connect ECONNREFUSED" }
      reqQuote (by decide)).1 "connect ECONNREFUSED" rfl

/-- C7.  Every route whose price parses positive is stored in the built
routes config (under its uppercased-method/starred-path key, unique keys
assumed) with exactly the requirement `scheme = "exact"`, `price = "$" ++
price_usdc`, `network = CAIP-2 of the configured base network`, `payTo = the
configured pay-to address`, and description/mimeType as in the source; a
request on such a route with no payment header receives HTTP 402 carrying
that stored requirement verbatim (modelled x402 emission), the middleware
relays the 402 status, and `base-sepolia` maps to `eip155:84532`. -/
theorem c7_payment_requirement (cfg : GatewayCfg) (rules : List RouteRule)
    (rule : RouteRule) (q : ℚ)
    (hmem : rule ∈ rules) (hq : jsParseFloat rule.price_usdc = some q) (hpos : 0 < q)
    (huniq : ∀ r2 ∈ rules, x402Key r2 = x402Key rule →
      routeConfigOf (toCAIP2Network cfg.baseNetwork) cfg.payToAddress r2
        = routeConfigOf (toCAIP2Network cfg.baseNetwork) cfg.payToAddress rule) :
    (buildRoutesConfig rules cfg).lookup (x402Key rule)
      = some { accepts := [{ scheme := "exact"
                             price := "$" ++ rule.price_usdc
                             network := toCAIP2Network cfg.baseNetwork
                             payTo := cfg.payToAddress }]
               description := rule.tool_id ++ " via " ++ rule.provider.provider_id
               mimeType := "application/json" } ∧
    x402NoPaymentResponse (buildRoutesConfig rules cfg) (x402Key rule)
      = some (402, routeConfigOf (toCAIP2Network cfg.baseNetwork) cfg.payToAddress rule) ∧
    (∀ ps : PaymentSystemModel, ps.passThrough = false →
      paymentMiddleware ps (X402Result.paymentError 402) = MwAction.respond 402) ∧
    toCAIP2Network "base-sepolia" = "eip155:84532" := by
  have hns : skippedByPrice rule = false := by
    unfold skippedByPrice
    rw [hq]
    simp [not_le.mpr hpos]
  have hlk : (buildRoutesConfig rules cfg).lookup (x402Key rule)
      = some (routeConfigOf (toCAIP2Network cfg.baseNetwork) cfg.payToAddress rule) := by
    unfold buildRoutesConfig
    exact brc_lookup_found _ _ _ _ rules []
      (fun r2 hr2 _ hk => huniq r2 hr2 hk) ⟨rule, hmem, hns, rfl⟩
  refine ⟨hlk, ?_, ?_, by decide⟩
  · unfold x402NoPaymentResponse
    rw [hlk]
    rfl
  · intro ps hps
    unfold paymentMiddleware
    simp [hps]

/-- C7, witness at the quote route fixture. -/
theorem c7_witness :
    (buildRoutesConfig [paidRule] cfgEx).lookup (x402Key paidRule)
      = some { accepts := [{ scheme := "exact"
                             price := "$" ++ paidRule.price_usdc
                             network := toCAIP2Network cfgEx.baseNetwork
                             payTo := cfgEx.payToAddress }]
               description := paidRule.tool_id ++ " via " ++ paidRule.provider.provider_id
               mimeType := "application/json" } ∧
    x402NoPaymentResponse (buildRoutesConfig [paidRule] cfgEx) (x402Key paidRule)
      = some (402, routeConfigOf (toCAIP2Network cfgEx.baseNetwork) cfgEx.payToAddress paidRule) ∧
    (∀ ps : PaymentSystemModel, ps.passThrough = false →
      paymentMiddleware ps (X402Result.paymentError 402) = MwAction.respond 402) ∧
    toCAIP2Network "base-sepolia" = "eip155:84532" :=
  c7_payment_requirement cfgEx [paidRule] paidRule (mkRat 1 100)
    (by decide) (by decide) (by decide) (by decide)

/-- C8.  Every pair in the forwarded header map has a key outside the
hop-by-hop and internal sets; every client header outside those sets is
forwarded with its value (arrays joined by `", "`); and the pipeline forwards
exactly `buildProxyHeaders req.headers` whenever it reaches the proxy. -/
theorem c8_header_hygiene :
    (∀ (headers : List (String × HVal)) (k : String) (v : String),
      (k, v) ∈ buildProxyHeaders headers → strippedHeader k = false) ∧
    (∀ (headers : List (String × HVal)) (k : String) (hv : HVal),
      (k, hv) ∈ headers → strippedHeader k = false →
      (k, joinHVal hv) ∈ buildProxyHeaders headers) ∧
    (∀ (cfg : GatewayCfg) (ps : PaymentSystemModel) (compiled : List CompiledRule)
        (hashFn : String → String) (env : PipelineEnv) (req : Req)
        (hs : List (String × String)),
      (runPipeline cfg ps compiled hashFn env req).proxyHeaders = some hs →
      hs = buildProxyHeaders req.headers) := by
  refine ⟨?_, ?_, ?_⟩
  · intro headers k v hmem
    simp only [buildProxyHeaders, List.mem_filterMap] at hmem
    obtain ⟨⟨k1, hv1⟩, hmem1, hif⟩ := hmem
    by_cases hstrip : strippedHeader k1
    · simp [hstrip] at hif
    · simp only [Bool.not_eq_true] at hstrip
      simp [hstrip] at hif
      obtain ⟨hk, _⟩ := hif
      rw [← hk]
      exact hstrip
  · intro headers k hv hmem hstrip
    simp only [buildProxyHeaders, List.mem_filterMap]
    exact ⟨(k, hv), hmem, by simp [hstrip]⟩
  · intro cfg ps compiled hashFn env req hs h
    unfold runPipeline at h
    repeat' split at h <;> try simp_all [noProxy]

/-- C8, witness: a custom header survives filtering in a map that also holds
a hop-by-hop and an internal header. -/
theorem c8_witness :
    ("x-custom", joinHVal (HVal.str "1"))
      ∈ buildProxyHeaders [("host", HVal.str "h"), ("x-payment", HVal.str "p"),
          ("x-custom", HVal.str "1")] :=
  c8_header_hygiene.2.1
    [("host", HVal.str "h"), ("x-payment", HVal.str "p"), ("x-custom", HVal.str "1")]
    "x-custom" (HVal.str "1") (by decide) (by decide)

/-- C9.  After construction and any sequence of dynamic `addRoute` calls —
each seeing an arbitrarily mutated current config — every requirement in the
coordinator's routes config still carries the CAIP-2 network derived from the
construction-time base network, and `getNetwork`/`getNetworkName` still
return the construction-time values. -/
theorem c9_network_fixed_at_construction (cfg0 : GatewayCfg) (routes : List RouteRule)
    (ops : List (GatewayCfg × RouteRule)) (k : String) (rc : RouteConfig)
    (h : ((applyAdds (createPaymentSystem cfg0 routes) ops).routesConfig).lookup k = some rc) :
    (∀ a ∈ rc.accepts, a.network = toCAIP2Network cfg0.baseNetwork) ∧
    (applyAdds (createPaymentSystem cfg0 routes) ops).getNetwork
      = toCAIP2Network cfg0.baseNetwork ∧
    (applyAdds (createPaymentSystem cfg0 routes) ops).getNetworkName
      = cfg0.baseNetwork := by
  have hinv := applyAdds_invariant ops (createPaymentSystem cfg0 routes)
    (toCAIP2Network cfg0.baseNetwork) rfl (netOK_build cfg0 routes)
  exact ⟨fun a ha => hinv.2.2 k rc h a ha, hinv.1, hinv.2.1⟩

/-- C9, witness: a route added while the config's base network is mutated to
`base` still gets the construction-time `eip155:84532`. -/
theorem c9_witness :
    (∀ a ∈ (routeConfigOf "eip155:84532" cfgMut.payToAddress addedRule).accepts,
      a.network = toCAIP2Network cfgEx.baseNetwork) ∧
    (applyAdds (createPaymentSystem cfgEx [paidRule]) [(cfgMut, addedRule)]).getNetwork
      = toCAIP2Network cfgEx.baseNetwork ∧
    (applyAdds (createPaymentSystem cfgEx [paidRule]) [(cfgMut, addedRule)]).getNetworkName
      = cfgEx.baseNetwork :=
  c9_network_fixed_at_construction cfgEx [paidRule] [(cfgMut, addedRule)]
    (x402Key addedRule) (routeConfigOf "eip155:84532" cfgMut.payToAddress addedRule)
    (by decide)

/-- C10, counterexample.  The claim says a system constructed with no route
of price strictly greater than zero is a permanent pass-through.  A route
whose price string does not parse (`parseFloat("") = NaN`) has no positive
price, yet `NaN <= 0` is `false` in JS, so the route is kept, the non-stub
branch is taken, the middleware can deny with 402, and `addRoute` is not a
no-op. -/
theorem c10_counterexample :
    jsParseFloat "" = none ∧
    nanRule.price_usdc = "" ∧
    (createPaymentSystem cfgEx [nanRule]).passThrough = false ∧
    (createPaymentSystem cfgEx [nanRule]).routesConfig ≠ [] ∧
    paymentMiddleware (createPaymentSystem cfgEx [nanRule]) (X402Result.paymentError 402)
      = MwAction.respond 402 ∧
    (createPaymentSystem cfgEx [nanRule]).addRoute cfgEx addedRule
      ≠ createPaymentSystem cfgEx [nanRule] := by
  decide

/-- C10, amended.  If every constructed route's price parses to a number that
is not positive (zero or negative), the system takes the pass-through branch:
its middleware calls `next()` unverified for every request, settle always
returns nulls, and `addRoute`/`removeRoute` are no-ops for its lifetime. -/
theorem c10_passthrough_when_all_nonpositive (cfg : GatewayCfg) (routes : List RouteRule)
    (hall : ∀ r ∈ routes, ∃ q, jsParseFloat r.price_usdc = some q ∧ q ≤ 0) :
    (createPaymentSystem cfg routes).passThrough = true ∧
    (∀ x, paymentMiddleware (createPaymentSystem cfg routes) x = MwAction.callNext false) ∧
    (∀ v o, settleCall (createPaymentSystem cfg routes) v o
      = { txHash := none, network := none, payer := none }) ∧
    (∀ c r, (createPaymentSystem cfg routes).addRoute c r = createPaymentSystem cfg routes) ∧
    (∀ r, (createPaymentSystem cfg routes).removeRoute r = createPaymentSystem cfg routes) := by
  have hskip : ∀ r ∈ routes, skippedByPrice r = true := by
    intro r hr
    obtain ⟨q, hq, hle⟩ := hall r hr
    unfold skippedByPrice
    rw [hq]
    exact decide_eq_true hle
  have hempty : buildRoutesConfig routes cfg = [] :=
    brc_all_skipped _ _ routes [] hskip
  have hpt : (createPaymentSystem cfg routes).passThrough = true := by
    unfold createPaymentSystem
    simp [hempty]
  refine ⟨hpt, ?_, ?_, ?_, ?_⟩
  · intro x; unfold paymentMiddleware; simp [hpt]
  · intro v o; unfold settleCall; simp [hpt]
  · intro c r; unfold PaymentSystemModel.addRoute; simp [hpt]
  · intro r; unfold PaymentSystemModel.removeRoute; simp [hpt]

/-- C10, witness at a single zero-priced route. -/
theorem c10_witness :
    (createPaymentSystem cfgEx [freeRule]).passThrough = true :=
  (c10_passthrough_when_all_nonpositive cfgEx [freeRule] (by
    intro r hr
    rw [List.mem_singleton] at hr
    subst hr
    exact ⟨mkRat 0 1, by decide, by decide⟩)).1

end RequestTap
